import Mathlib

/-!
Shallow embedding of the Parity Boardroom orchestration core (`src/app.py`):
the manual-override / smart-router dispatch, the three Director agents with
their instruction composition and retry policy, the sequential ALL pipeline,
the context-file memory store, and the startup default-model selection.

Provider calls are modelled as explicit function parameters returning
`Except String String` (error message or response text), so that every
behaviour of the external model call (success, raised error) is a value.
An absent client (unconfigured API key) is an `Option` that is `none`.
-/

namespace ParityBoard

/-! ## String primitives (embedding the Python string operations used) -/

/-- Structural prefix test on character lists (kernel-reducible). -/
def hasPre : List Char → List Char → Bool
  | [], _ => true
  | _ :: _, [] => false
  | a :: ps, b :: ss => a == b && hasPre ps ss

/-- Structural substring-occurrence test on character lists. -/
def occursIn (p : List Char) : List Char → Bool
  | [] => hasPre p []
  | c :: ss => hasPre p (c :: ss) || occursIn p ss

/-- Embeds Python's substring test `pat in s`. -/
def strOccurs (s pat : String) : Bool := occursIn pat.data s.data

/-- Embeds Python's `str.lower()` (ASCII case mapping). -/
def pyLower (s : String) : String := String.mk (s.data.map Char.toLower)

/-- Embeds Python's `str.upper()` (ASCII case mapping). -/
def pyUpper (s : String) : String := String.mk (s.data.map Char.toUpper)

/-- Python whitespace characters recognised by `str.strip()`. -/
def isPyWs (c : Char) : Bool :=
  c == ' ' || c == '\t' || c == '\n' || c == '\r' || c == '\x0b' || c == '\x0c'

/-- Embeds Python's `str.strip()`: drop leading and trailing whitespace. -/
def pyStrip (s : String) : String :=
  String.mk (((s.data.dropWhile isPyWs).reverse.dropWhile isPyWs).reverse)

/-- Embeds Python's `str.replace("*", "")`: remove every asterisk. -/
def pyRemoveStar (s : String) : String :=
  String.mk (s.data.filter (fun c => !(c == '*')))

/-! ## The Router (`ask_vc_router`, app.py lines 115-138) -/

/-- The fixed classification instruction composed by `ask_vc_router`. -/
def routerInstruction : String :=
  "You are the CEO of an AI agency. Your goal is EFFICIENCY.\n" ++
  "Analyze the user's prompt and decide who should answer.\n\n" ++
  "ROLES:\n" ++
  "1. SCOUT: Market research, news, trends, searching for info, 'Find me X'.\n" ++
  "2. ARCHITECT: Code, tech stacks, libraries, 'Write a script', implementation.\n" ++
  "3. VC: Business strategy, ROI, 'Should I do this?', final verdict.\n" ++
  "4. ALL: Complex requests requiring research -> code -> decision.\n\n" ++
  "OUTPUT: Return ONLY one word: 'SCOUT', 'ARCHITECT', 'VC', or 'ALL'."

/-- The text sent to the router model: instruction plus the user prompt. -/
def routerQuery (prompt : String) : String :=
  routerInstruction ++ "\n\nPROMPT: " ++ prompt

/-- The four labels accepted from the router model. -/
def routerValidLabels : List String := ["SCOUT", "ARCHITECT", "VC", "ALL"]

/-- Embeds `resp.text.strip().upper().replace("*", "")` from app.py line 133. -/
def routerNormalize (t : String) : String := pyRemoveStar (pyUpper (pyStrip t))

/-- Embeds `ask_vc_router(prompt, model_id)`. `vcClient` is the optional
`VC_CLIENT` binding; `generate` is the router model call on the composed
query, returning either a response text or a raised error's message. -/
def ask_vc_router (vcClient : Option Unit) (generate : String → Except String String)
    (prompt _model_id : String) : String :=
  match vcClient with
  | none => "ALL"
  | some _ =>
    match generate (routerQuery prompt) with
    | Except.error _ => "ALL"
    | Except.ok t =>
      let decision := routerNormalize t
      if routerValidLabels.contains decision then decision else "ALL"

/-! ## Director agents (`get_agent_rules`, `ask_scout`, `ask_architect`,
`ask_vc`, app.py lines 144-220) -/

/-- Embeds `get_agent_rules(agent_name)`: `rulesFile` is the content of
`rules.md` when that file exists. -/
def get_agent_rules (agent_name : String) (rulesFile : Option String) : String :=
  match rulesFile with
  | none => ""
  | some content =>
    if strOccurs content agent_name then "\n\n[YOUR TRAINED RULES]:\n" ++ content
    else ""

/-- Scout's style directive (app.py lines 155-158). -/
def scoutStyleInst (style : String) : String :=
  if style == "Executive (Brief)" then
    "CORE DIRECTIVE: EXTREME BREVITY. Max 150 words. Bullets ONLY."
  else
    "CORE DIRECTIVE: DETAILED ANALYSIS. Provide context and reasoning."

/-- Scout's composed system instruction (app.py lines 160-164). -/
def scoutSystemPrompt (history : String) (rulesFile : Option String)
    (style : String) : String :=
  "You are Scout. History:\n" ++ history ++ "\n" ++
    get_agent_rules "SCOUT" rulesFile ++ "\n\n" ++
    scoutStyleInst style ++ "\n" ++
    "CITATION REQUIRED: [Link](url) format."

/-- Embeds `ask_scout(prompt, history, style)`. `chat` is the provider call
taking the system instruction and the user message. -/
def ask_scout (scoutClient : Option Unit) (chat : String → String → Except String String)
    (prompt history style : String) (rulesFile : Option String) : String :=
  match scoutClient with
  | none => "❌ Scout (Grok) missing."
  | some _ =>
    match chat (scoutSystemPrompt history rulesFile style) prompt with
    | Except.ok content => "**[🤖 Grok-3]**\n" ++ content
    | Except.error e => "⚠️ Scout Crashed: " ++ e

/-- Architect's style directive (app.py lines 178-181). -/
def architectStyleInst (style : String) : String :=
  if style == "Executive (Brief)" then
    "CORE DIRECTIVE: CODE ONLY. Code Block first. Max 3 sentences explanation."
  else
    "CORE DIRECTIVE: TECHNICAL SPEC. Include reasoning and trade-offs."

/-- Architect's composed system instruction (app.py lines 183-187). -/
def architectSystemPrompt (history : String) (rulesFile : Option String)
    (style : String) : String :=
  "You are Architect. History:\n" ++ history ++ "\n" ++
    get_agent_rules "ARCHITECT" rulesFile ++ "\n\n" ++
    architectStyleInst style ++ "\n" ++
    "NO HALLUCINATED LIBRARIES."

/-- Embeds `ask_architect(prompt, history, style)`. -/
def ask_architect (architectClient : Option Unit)
    (chat : String → String → Except String String)
    (prompt history style : String) (rulesFile : Option String) : String :=
  match architectClient with
  | none => "❌ Architect (GPT-4o) missing."
  | some _ =>
    match chat (architectSystemPrompt history rulesFile style) ("Task: " ++ prompt) with
    | Except.ok content => "**[🤖 GPT-4o]**\n" ++ content
    | Except.error e => "⚠️ Architect Crashed: " ++ e

/-- VC's style directive (app.py lines 201-204). -/
def vcStyleInst (style : String) : String :=
  if style == "Executive (Brief)" then
    "STYLE: VERDICT (YES/NO) + 1 Bullet Point Reason. Max 50 words."
  else
    "STYLE: Detailed Critique, Principles (Lean/Blue Ocean), Risk Analysis."

/-- VC's composed full prompt (app.py lines 206-210). -/
def vcFullPrompt (prompt history : String) (rulesFile : Option String)
    (style : String) : String :=
  "You are VC. History:\n" ++ history ++ "\n" ++
    get_agent_rules "VC" rulesFile ++ "\n\n" ++
    "Critique this:\n" ++ prompt ++ "\n\n" ++
    vcStyleInst style

/-- Result of one `ask_vc` run: the returned text, how many provider calls
were made, and how many time units were slept (`time.sleep(2)` per retry). -/
structure VCRun where
  response : String
  attemptsMade : Nat
  sleepUnits : Nat
deriving DecidableEq, Repr

/-- The `for attempt in range(3)` retry loop of `ask_vc` (app.py 213-220).
`generate` maps the attempt index and the prompt to the provider outcome;
`fuel` is the number of attempts remaining. -/
def vcLoop (generate : Nat → String → Except String String)
    (model_id full_prompt : String) : Nat → Nat → Nat → VCRun
  | attempt, slept, 0 => ⟨"⚠️ VC Timed Out", attempt, slept⟩
  | attempt, slept, fuel + 1 =>
    match generate attempt full_prompt with
    | Except.ok text => ⟨"**[🤖 " ++ model_id ++ "]**\n" ++ text, attempt + 1, slept⟩
    | Except.error e =>
      if strOccurs e "429" then
        vcLoop generate model_id full_prompt (attempt + 1) (slept + 2) fuel
      else ⟨"⚠️ VC Crashed: " ++ e, attempt + 1, slept⟩

/-- Embeds `ask_vc(prompt, history, style, model_id)`. -/
def ask_vc (vcClient : Option Unit) (generate : Nat → String → Except String String)
    (prompt history style : String) (rulesFile : Option String)
    (model_id : String) : VCRun :=
  match vcClient with
  | none => ⟨"❌ VC (Gemini) missing.", 0, 0⟩
  | some _ => vcLoop generate model_id (vcFullPrompt prompt history rulesFile style) 0 0 3

/-! ## Orchestrator routing (app.py lines 244-256) -/

/-- The routing decision for one turn: the target label and whether the
smart router (`ask_vc_router`) was invoked to produce it. -/
structure RoutingOutcome where
  target : String
  routerInvoked : Bool
deriving DecidableEq, Repr

/-- Embeds the routing logic of the chat handler: the case-insensitive
manual-override chain `@scout` / `@architect` / `@vc`, falling back to the
smart router. `router` is `ask_vc_router` partially applied to its clients. -/
def resolveTarget (prompt : String) (router : String → String) : RoutingOutcome :=
  if strOccurs (pyLower prompt) "@scout" then ⟨"SCOUT", false⟩
  else if strOccurs (pyLower prompt) "@architect" then ⟨"ARCHITECT", false⟩
  else if strOccurs (pyLower prompt) "@vc" then ⟨"VC", false⟩
  else ⟨router prompt, true⟩

/-! ## The ALL-target sequential pipeline (app.py lines 281-286) -/

/-- The three Director roles. -/
inductive Role where
  | scout
  | architect
  | vc
deriving DecidableEq, Repr

/-- A record of one ALL-target pipeline run: the Director invocations in
order (role and the prompt it received), the three outputs, and the
composed board minutes. -/
structure PipelineRun where
  calls : List (Role × String)
  scoutOut : String
  architectOut : String
  vcOut : String
  minutes : String
deriving DecidableEq, Repr

/-- Embeds the `else: # ALL` branch: Scout on `Analyze: {prompt}`, then
Architect on `Context: {r1}\n\nTask: Tech Spec.`, then VC on
`Scout: {r1}\n\nArchitect: {r2}\n\nVerdict?`, composing the minutes.
`scoutF`, `archF`, `vcF` map the received prompt to the Director's output. -/
def runAllPipeline (scoutF archF vcF : String → String) (prompt : String) : PipelineRun :=
  let p1 := "Analyze: " ++ prompt
  let r1 := scoutF p1
  let p2 := "Context: " ++ r1 ++ "\n\nTask: Tech Spec."
  let r2 := archF p2
  let p3 := "Scout: " ++ r1 ++ "\n\nArchitect: " ++ r2 ++ "\n\nVerdict?"
  let r3 := vcF p3
  ⟨[(Role.scout, p1), (Role.architect, p2), (Role.vc, p3)], r1, r2, r3,
    "### BOARD MEETING\n\n**SCOUT:**\n" ++ r1 ++ "\n\n**ARCHITECT:**\n" ++ r2 ++
      "\n\n**VC VERDICT:**\n" ++ r3⟩

/-! ## Memory store (`context.md`: app.py lines 106-110, 239-242, 290-291) -/

/-- The state of the `context.md` file: `none` when the file is absent. -/
def MemState : Type := Option String

/-- Context load: read the file if it exists, else the empty string. -/
def memRead : MemState → String
  | none => ""
  | some s => s

/-- The Wipe Memory button: `os.remove("context.md")`. -/
def memClear (_ : MemState) : MemState := none

/-- Appending in mode `"a"`: creates the file when absent. -/
def memAppend (st : MemState) (e : String) : MemState :=
  some (memRead st ++ e)

/-- A sequence of appends, oldest first. -/
def memAppendAll (st : MemState) (es : List String) : MemState :=
  es.foldl memAppend st

/-- Concatenation of a list of entries in order. -/
def strConcat (es : List String) : String := es.foldr (· ++ ·) ""

/-- The per-turn entry written to `context.md` (app.py lines 290-291):
`f"\n\nDATE: {date}\nUSER: {prompt}\nBOARD: {final_response}"`. -/
def contextEntry (dateStr userPrompt finalResponse : String) : String :=
  "\n\nDATE: " ++ dateStr ++ "\nUSER: " ++ userPrompt ++ "\nBOARD: " ++ finalResponse

/-- The persist step of one turn: append the formatted entry. -/
def persistTurn (st : MemState) (dateStr userPrompt finalResponse : String) : MemState :=
  memAppend st (contextEntry dateStr userPrompt finalResponse)

/-! ## Startup default VC model selection (`init_clients`, app.py 36-50) -/

/-- The fixed priority list of preferred VC models. -/
def vcPriorityModels : List String :=
  ["models/gemini-3.0-pro",
   "models/gemini-3-pro",
   "models/gemini-1.5-pro-latest",
   "models/gemini-1.5-pro"]

/-- Embeds the `VC_DEFAULT` computation: the catalog call either fails
(`Except.error`) or yields the available-model list. On success the default
is `next((m for m in priority if m in available), available[0])`; an empty
catalog makes the eagerly evaluated `available[0]` raise, landing in the
same `except` fallback as a failed catalog call. -/
def selectVCDefault : Except Unit (List String) → String
  | Except.error _ => "models/gemini-1.5-flash"
  | Except.ok avail =>
    match avail with
    | [] => "models/gemini-1.5-flash"
    | a :: _ => (vcPriorityModels.find? (fun m => avail.contains m)).getD a

/-- The override token scanned for each role (app.py lines 248-250). -/
def overrideToken : Role → String
  | Role.scout => "@scout"
  | Role.architect => "@architect"
  | Role.vc => "@vc"

/-- The routing-target label each role's override resolves to. -/
def roleTargetLabel : Role → String
  | Role.scout => "SCOUT"
  | Role.architect => "ARCHITECT"
  | Role.vc => "VC"

/-- Position of each role in the `if`/`elif` override chain (lower = checked
first, hence higher precedence). -/
def rolePriority : Role → Nat
  | Role.scout => 0
  | Role.architect => 1
  | Role.vc => 2

/-! ## Specification-side predicates -/

/-- The string `pat` occurs inside `s` as a contiguous substring. -/
def IsSubstrS (pat s : String) : Prop := ∃ a b : String, s = a ++ pat ++ b

/-- The text `s` contains all of `es` in order (possibly with other text
interleaved before, between, and after the entries). -/
inductive ContainsInOrder : List String → String → Prop where
  | nil (s : String) : ContainsInOrder [] s
  | cons {e : String} {es : List String} {s pre rest : String}
      (hs : s = pre ++ e ++ rest) (hrest : ContainsInOrder es rest) :
      ContainsInOrder (e :: es) s

/-- Modelled from the spec's claimed entry format: a date segment, a
`USER:` field and a `BOARD:` field separated from each other by blank
lines (to be compared against `contextEntry`, which the code uses). -/
def blankLineSeparatedEntry (e : String) : Prop :=
  ∃ dateSeg userSeg boardSeg : String,
    e = dateSeg ++ "\n\n" ++ ("USER: " ++ userSeg) ++ "\n\n" ++ ("BOARD: " ++ boardSeg)

/-! ## Bridge lemmas for the string primitives -/

theorem hasPre_iff (p s : List Char) : hasPre p s = true ↔ p <+: s := by
  induction p generalizing s with
  | nil => simp [hasPre]
  | cons a ps ih =>
    cases s with
    | nil => simp [hasPre]
    | cons b ss =>
      rw [hasPre, List.cons_prefix_cons]
      simp only [Bool.and_eq_true, beq_iff_eq, ih]

theorem occursIn_iff (p s : List Char) : occursIn p s = true ↔ p <:+: s := by
  induction s with
  | nil => simp [occursIn, hasPre_iff]
  | cons c ss ih =>
    simp [occursIn, hasPre_iff, ih, List.infix_cons_iff]

theorem strOccurs_iff (s pat : String) :
    strOccurs s pat = true ↔ ∃ a b : String, s = a ++ pat ++ b := by
  rw [strOccurs, occursIn_iff]
  constructor
  · rintro ⟨a, b, h⟩
    refine ⟨String.mk a, String.mk b, ?_⟩
    apply String.ext
    simp [String.data_append, ← h]
  · rintro ⟨a, b, h⟩
    exact ⟨a.data, b.data, by simp [h, String.data_append]⟩

/-! ## Claim C1 -/

/-- C1 (counterexample): the claim as stated is false — the prompt
`"@scout please check with @vc"` contains the override token for VC, yet the
routing target is SCOUT, not VC (the `elif` chain gives Scout precedence). -/
theorem c1_claim_false :
    strOccurs (pyLower "@scout please check with @vc") "@vc" = true ∧
    (resolveTarget "@scout please check with @vc" (fun _ => "ALL")).target ≠ "VC" := by
  constructor
  · decide
  · decide

/-- C1 (amended): for every prompt containing the override token of role R
(case-insensitively) and no token of a higher-precedence role (Scout before
Architect before VC), the routing target is R's label and the Router is
never invoked for that turn. -/
theorem c1_override_routes_to_role (prompt : String) (router : String → String) (r : Role)
    (hr : strOccurs (pyLower prompt) (overrideToken r) = true)
    (hhi : ∀ r' : Role, rolePriority r' < rolePriority r →
      strOccurs (pyLower prompt) (overrideToken r') = false) :
    resolveTarget prompt router = ⟨roleTargetLabel r, false⟩ := by
  cases r with
  | scout =>
    simp only [overrideToken] at hr
    simp [resolveTarget, hr, roleTargetLabel]
  | architect =>
    have h0 : strOccurs (pyLower prompt) "@scout" = false :=
      hhi Role.scout (by decide)
    simp only [overrideToken] at hr
    simp [resolveTarget, hr, h0, roleTargetLabel]
  | vc =>
    have h0 : strOccurs (pyLower prompt) "@scout" = false :=
      hhi Role.scout (by decide)
    have h1 : strOccurs (pyLower prompt) "@architect" = false :=
      hhi Role.architect (by decide)
    simp only [overrideToken] at hr
    simp [resolveTarget, hr, h0, h1, roleTargetLabel]

/-- C1 (witness): the amended theorem applied at the concrete prompt
`"ship it @VC"`, role VC, and a router that would have answered SCOUT. -/
theorem c1_override_routes_to_role_witness :
    resolveTarget "ship it @VC" (fun _ => "SCOUT") = ⟨"VC", false⟩ :=
  c1_override_routes_to_role "ship it @VC" (fun _ => "SCOUT") Role.vc
    (by decide)
    (by
      intro r' hlt
      cases r' with
      | scout => decide
      | architect => decide
      | vc => exact absurd hlt (by decide))

/-! ## Claim C10 -/

/-- C10: with multiple override tokens the target follows the fixed
precedence Scout over Architect over VC; the hypotheses mention only
token containment, so the result is independent of token positions. -/
theorem c10_override_priority (prompt : String) (router : String → String) :
    (strOccurs (pyLower prompt) "@scout" = true →
      resolveTarget prompt router = ⟨"SCOUT", false⟩) ∧
    (strOccurs (pyLower prompt) "@scout" = false →
      strOccurs (pyLower prompt) "@architect" = true →
      resolveTarget prompt router = ⟨"ARCHITECT", false⟩) ∧
    (strOccurs (pyLower prompt) "@scout" = false →
      strOccurs (pyLower prompt) "@architect" = false →
      strOccurs (pyLower prompt) "@vc" = true →
      resolveTarget prompt router = ⟨"VC", false⟩) := by
  refine ⟨fun h0 => ?_, fun h0 h1 => ?_, fun h0 h1 h2 => ?_⟩
  · simp [resolveTarget, h0]
  · simp [resolveTarget, h0, h1]
  · simp [resolveTarget, h0, h1, h2]

/-- C10 (witness): a prompt containing both `@vc` and `@scout` routes to
Scout regardless of the VC token coming first. -/
theorem c10_override_priority_witness :
    resolveTarget "ask @vc then @scout" (fun _ => "ALL") = ⟨"SCOUT", false⟩ :=
  (c10_override_priority "ask @vc then @scout" (fun _ => "ALL")).1 (by decide)

/-! ## Claim C2 -/

/-- C2: the Router returns `"ALL"` whenever the VC client is absent, the
model call raises, or the normalised response is not one of the four valid
labels; and on every input its result is one of the four labels (it never
propagates an error — failure is absorbed into the returned label). -/
theorem c2_router_fallback :
    (∀ (g : String → Except String String) (p m : String),
      ask_vc_router none g p m = "ALL") ∧
    (∀ (e p m : String),
      ask_vc_router (some ()) (fun _ => Except.error e) p m = "ALL") ∧
    (∀ (t p m : String),
      routerValidLabels.contains (routerNormalize t) = false →
      ask_vc_router (some ()) (fun _ => Except.ok t) p m = "ALL") ∧
    (∀ (c : Option Unit) (g : String → Except String String) (p m : String),
      routerValidLabels.contains (ask_vc_router c g p m) = true) ∧
    (∀ (p : String) (router : String → String),
      strOccurs (pyLower p) "@scout" = false →
      strOccurs (pyLower p) "@architect" = false →
      strOccurs (pyLower p) "@vc" = false →
      resolveTarget p router = ⟨router p, true⟩) := by
  refine ⟨fun g p m => rfl, fun e p m => rfl, fun t p m h => ?_, fun c g p m => ?_,
    fun p router h0 h1 h2 => ?_⟩
  · have h' : routerNormalize t ∉ routerValidLabels := by simpa using h
    simp [ask_vc_router, h']
  · cases c with
    | none =>
      rw [show ask_vc_router none g p m = "ALL" from rfl]
      decide
    | some u =>
      cases hg : g (routerQuery p) with
      | error e =>
        simp only [ask_vc_router, hg]
        decide
      | ok t =>
        simp only [ask_vc_router, hg]
        split
        · assumption
        · decide
  · simp [resolveTarget, h0, h1, h2]

/-- C2 (witness): a present client whose model answers the invalid label
`"maybe"` yields `"ALL"`, and a response `" *vc* "` normalises into the
valid label set. -/
theorem c2_router_fallback_witness :
    ask_vc_router (some ()) (fun _ => Except.ok "maybe") "p" "mid" = "ALL" ∧
    routerValidLabels.contains
      (ask_vc_router (some ()) (fun _ => Except.ok " *vc* ") "p" "mid") = true :=
  ⟨c2_router_fallback.2.2.1 "maybe" "p" "mid" (by decide),
   c2_router_fallback.2.2.2.1 (some ()) (fun _ => Except.ok " *vc* ") "p" "mid"⟩

/-! ## Claim C3 -/

/-- C3: the ALL-target pipeline invokes the Directors in the order Scout,
Architect, Verdict; Architect's received prompt contains Scout's complete
output as a substring, and Verdict's received prompt contains both Scout's
and Architect's complete outputs as substrings. -/
theorem c3_pipeline_sequential (scoutF archF vcF : String → String) (prompt : String) :
    ∃ p1 p2 p3 : String,
      (runAllPipeline scoutF archF vcF prompt).calls =
        [(Role.scout, p1), (Role.architect, p2), (Role.vc, p3)] ∧
      IsSubstrS (scoutF p1) p2 ∧
      IsSubstrS (scoutF p1) p3 ∧
      IsSubstrS (archF p2) p3 := by
  refine ⟨"Analyze: " ++ prompt,
    "Context: " ++ scoutF ("Analyze: " ++ prompt) ++ "\n\nTask: Tech Spec.",
    "Scout: " ++ scoutF ("Analyze: " ++ prompt) ++ "\n\nArchitect: " ++
      archF ("Context: " ++ scoutF ("Analyze: " ++ prompt) ++ "\n\nTask: Tech Spec.") ++
      "\n\nVerdict?",
    rfl, ⟨"Context: ", "\n\nTask: Tech Spec.", rfl⟩, ?_, ?_⟩
  · refine ⟨"Scout: ",
      "\n\nArchitect: " ++
        archF ("Context: " ++ scoutF ("Analyze: " ++ prompt) ++ "\n\nTask: Tech Spec.") ++
        "\n\nVerdict?", ?_⟩
    simp [String.append_assoc]
  · exact ⟨"Scout: " ++ scoutF ("Analyze: " ++ prompt) ++ "\n\nArchitect: ",
      "\n\nVerdict?", rfl⟩

/-! ## Claim C4 -/

/-- The retry loop makes at most `fuel` further provider calls. -/
theorem vcLoop_attempts_le (g : Nat → String → Except String String) (m fp : String) :
    ∀ fuel attempt slept, (vcLoop g m fp attempt slept fuel).attemptsMade ≤ attempt + fuel := by
  intro fuel
  induction fuel with
  | zero =>
    intro attempt slept
    simp [vcLoop]
  | succ n ih =>
    intro attempt slept
    cases hg : g attempt fp with
    | ok t =>
      simp only [vcLoop, hg]
      omega
    | error e =>
      cases h : strOccurs e "429" with
      | true =>
        simp only [vcLoop, hg, h, if_true]
        have := ih (attempt + 1) (slept + 2)
        omega
      | false =>
        simp only [vcLoop, hg, h]
        simp

/-- C4: the Verdict Director makes at most 3 provider calls; a non-rate-limit
error returns the failure response after exactly 1 attempt with no backoff;
two rate-limited failures (error text containing "429") followed by a success
return the successful result after exactly 3 attempts with two backoffs of 2
time units; three rate-limited failures yield the distinct timed-out response
after 3 attempts. -/
theorem c4_vc_retry_policy :
    (∀ (c : Option Unit) (g : Nat → String → Except String String)
        (p h s : String) (rf : Option String) (m : String),
      (ask_vc c g p h s rf m).attemptsMade ≤ 3) ∧
    (∀ (e p h s : String) (rf : Option String) (m : String),
      strOccurs e "429" = false →
      ask_vc (some ()) (fun _ _ => Except.error e) p h s rf m =
        ⟨"⚠️ VC Crashed: " ++ e, 1, 0⟩) ∧
    (∀ (e t p h s : String) (rf : Option String) (m : String),
      strOccurs e "429" = true →
      ask_vc (some ()) (fun n _ => if n < 2 then Except.error e else Except.ok t) p h s rf m =
        ⟨"**[🤖 " ++ m ++ "]**\n" ++ t, 3, 4⟩) ∧
    (∀ (e p h s : String) (rf : Option String) (m : String),
      strOccurs e "429" = true →
      ask_vc (some ()) (fun _ _ => Except.error e) p h s rf m =
        ⟨"⚠️ VC Timed Out", 3, 6⟩) := by
  refine ⟨fun c g p h s rf m => ?_, fun e p h s rf m he => ?_, fun e t p h s rf m he => ?_,
    fun e p h s rf m he => ?_⟩
  · cases c with
    | none => simp [ask_vc]
    | some u =>
      simpa using vcLoop_attempts_le g m (vcFullPrompt p h rf s) 3 0 0
  · simp [ask_vc, vcLoop, he]
  · simp [ask_vc, vcLoop, he]
  · simp [ask_vc, vcLoop, he]

/-- C4 (witness): the retry policy evaluated at concrete providers: a
provider that always fails with a non-rate-limit error, one that fails twice
with a 429 error then succeeds, and one that always fails with a 429 error. -/
theorem c4_vc_retry_policy_witness :
    ask_vc (some ()) (fun _ _ => Except.error "boom") "p" "h" "s" none "mid" =
      ⟨"⚠️ VC Crashed: " ++ "boom", 1, 0⟩ ∧
    ask_vc (some ())
        (fun n _ => if n < 2 then Except.error "Error 429: quota" else Except.ok "Approved.")
        "p" "h" "s" none "mid" =
      ⟨"**[🤖 " ++ "mid" ++ "]**\n" ++ "Approved.", 3, 4⟩ ∧
    ask_vc (some ()) (fun _ _ => Except.error "Error 429: quota") "p" "h" "s" none "mid" =
      ⟨"⚠️ VC Timed Out", 3, 6⟩ :=
  ⟨c4_vc_retry_policy.2.1 "boom" "p" "h" "s" none "mid" (by decide),
   c4_vc_retry_policy.2.2.1 "Error 429: quota" "Approved." "p" "h" "s" none "mid" (by decide),
   c4_vc_retry_policy.2.2.2 "Error 429: quota" "p" "h" "s" none "mid" (by decide)⟩

/-! ## Claim C5 -/

/-- Every outcome of the VC retry loop is one of the three displayable
shapes: timed out, formatted success, or formatted crash. -/
theorem vcLoop_response_cases (g : Nat → String → Except String String) (m fp : String) :
    ∀ fuel attempt slept,
      (vcLoop g m fp attempt slept fuel).response = "⚠️ VC Timed Out" ∨
      (∃ t, (vcLoop g m fp attempt slept fuel).response = "**[🤖 " ++ m ++ "]**\n" ++ t) ∨
      (∃ e, (vcLoop g m fp attempt slept fuel).response = "⚠️ VC Crashed: " ++ e) := by
  intro fuel
  induction fuel with
  | zero =>
    intro attempt slept
    left
    rfl
  | succ n ih =>
    intro attempt slept
    cases hg : g attempt fp with
    | ok t =>
      right
      left
      exact ⟨t, by simp [vcLoop, hg]⟩
    | error e =>
      cases h : strOccurs e "429" with
      | true =>
        have hrec := ih (attempt + 1) (slept + 2)
        simpa [vcLoop, hg, h] using hrec
      | false =>
        right
        right
        exact ⟨e, by simp [vcLoop, hg, h]⟩

/-- C5: for every Director and every behaviour of the underlying provider
call (success with any text, any raised error, absent client), the Director
returns one of its displayable response shapes — failures are values, never
exceptions crossing the Director boundary. -/
theorem c5_directors_return_values :
    (∀ (c : Option Unit) (chat : String → String → Except String String)
        (p h s : String) (rf : Option String),
      ask_scout c chat p h s rf = "❌ Scout (Grok) missing." ∨
      (∃ t, ask_scout c chat p h s rf = "**[🤖 Grok-3]**\n" ++ t) ∨
      (∃ e, ask_scout c chat p h s rf = "⚠️ Scout Crashed: " ++ e)) ∧
    (∀ (c : Option Unit) (chat : String → String → Except String String)
        (p h s : String) (rf : Option String),
      ask_architect c chat p h s rf = "❌ Architect (GPT-4o) missing." ∨
      (∃ t, ask_architect c chat p h s rf = "**[🤖 GPT-4o]**\n" ++ t) ∨
      (∃ e, ask_architect c chat p h s rf = "⚠️ Architect Crashed: " ++ e)) ∧
    (∀ (c : Option Unit) (g : Nat → String → Except String String)
        (p h s : String) (rf : Option String) (m : String),
      (ask_vc c g p h s rf m).response = "❌ VC (Gemini) missing." ∨
      (ask_vc c g p h s rf m).response = "⚠️ VC Timed Out" ∨
      (∃ t, (ask_vc c g p h s rf m).response = "**[🤖 " ++ m ++ "]**\n" ++ t) ∨
      (∃ e, (ask_vc c g p h s rf m).response = "⚠️ VC Crashed: " ++ e)) := by
  refine ⟨fun c chat p h s rf => ?_, fun c chat p h s rf => ?_, fun c g p h s rf m => ?_⟩
  · cases c with
    | none => left; rfl
    | some u =>
      cases hc : chat (scoutSystemPrompt h rf s) p with
      | ok t => exact Or.inr (Or.inl ⟨t, by simp [ask_scout, hc]⟩)
      | error e => exact Or.inr (Or.inr ⟨e, by simp [ask_scout, hc]⟩)
  · cases c with
    | none => left; rfl
    | some u =>
      cases hc : chat (architectSystemPrompt h rf s) ("Task: " ++ p) with
      | ok t => exact Or.inr (Or.inl ⟨t, by simp [ask_architect, hc]⟩)
      | error e => exact Or.inr (Or.inr ⟨e, by simp [ask_architect, hc]⟩)
  · cases c with
    | none => left; rfl
    | some u =>
      exact Or.inr (vcLoop_response_cases g m (vcFullPrompt p h rf s) 3 0 0)

/-! ## Claim C6 -/

/-- The empty string is a left identity for string append. -/
theorem str_empty_append (s : String) : "" ++ s = s := by
  apply String.ext
  simp [String.data_append]

/-- Reading after a sequence of appends yields the old content followed by
the concatenation of the appended entries. -/
theorem memRead_appendAll (st : MemState) (es : List String) :
    memRead (memAppendAll st es) = memRead st ++ strConcat es := by
  induction es generalizing st with
  | nil => simp [memAppendAll, strConcat]
  | cons e es ih =>
    have step : memAppendAll st (e :: es) = memAppendAll (memAppend st e) es := rfl
    rw [step, ih]
    show (memRead st ++ e) ++ strConcat es = memRead st ++ strConcat (e :: es)
    rw [show strConcat (e :: es) = e ++ strConcat es from rfl, String.append_assoc]

/-- A concatenation of entries, with any text placed before it, contains the
entries in order. -/
theorem containsInOrder_concat (es : List String) :
    ∀ x : String, ContainsInOrder es (x ++ strConcat es) := by
  induction es with
  | nil =>
    intro x
    exact ContainsInOrder.nil _
  | cons e es ih =>
    intro x
    have hrest : ContainsInOrder es (strConcat es) := by
      have h := ih ""
      rwa [str_empty_append] at h
    exact ContainsInOrder.cons
      (show x ++ strConcat (e :: es) = x ++ e ++ strConcat es by
        rw [show strConcat (e :: es) = e ++ strConcat es from rfl, String.append_assoc])
      hrest

/-- C6: the Memory Store reads as the empty string after a clear (and when
never written); after any sequence of appends it reads as a single text
containing all appended entries in order; and an append only extends the
previous content — it never mutates existing entries. -/
theorem c6_memory_store :
    (∀ st : MemState, memRead (memClear st) = "") ∧
    memRead (none : MemState) = "" ∧
    (∀ (st : MemState) (es : List String),
      ContainsInOrder es (memRead (memAppendAll st es))) ∧
    (∀ (st : MemState) (e : String),
      ∃ tail, memRead (memAppend st e) = memRead st ++ tail) := by
  refine ⟨fun st => rfl, rfl, fun st es => ?_, fun st e => ⟨e, rfl⟩⟩
  rw [memRead_appendAll]
  exact containsInOrder_concat es (memRead st)

/-! ## Claim C7 -/

/-- C7 (counterexample): the claim as stated is false — the concrete entry
written for date `"2026-10-12 09:00"`, prompt `"hi"` and response `"ok"` has
its three fields separated by single newlines, so it admits no decomposition
with blank lines between the fields. -/
theorem c7_claim_false :
    ¬ blankLineSeparatedEntry (contextEntry "2026-10-12 09:00" "hi" "ok") := by
  rintro ⟨d, u, b, h⟩
  have hocc : strOccurs (contextEntry "2026-10-12 09:00" "hi" "ok") "\n\nBOARD: " = true := by
    rw [strOccurs_iff]
    refine ⟨d ++ "\n\n" ++ ("USER: " ++ u), b, ?_⟩
    apply String.ext
    rw [h]
    have k1 : ("\n\nBOARD: " : String).data = '\n' :: '\n' :: ("BOARD: " : String).data := rfl
    have k2 : ("\n\n" : String).data = ['\n', '\n'] := rfl
    simp [String.data_append, k1, k2, List.append_assoc]
  exact absurd hocc (by decide)

/-- C7 (amended): every entry appended to the Memory Store has the
deterministic per-turn format: a `DATE:` stamp line, a `USER:` line with the
prompt, and a `BOARD:` line with the rendered response, the three fields
separated by single newlines, with a blank line preceding the entry
(separating it from the previous content). -/
theorem c7_entry_format (st : MemState) (d u b : String) :
    memRead (persistTurn st d u b) =
      memRead st ++
        ("\n\n" ++ ("DATE: " ++ d) ++ "\n" ++ ("USER: " ++ u) ++ "\n" ++ ("BOARD: " ++ b)) := by
  show memRead st ++ contextEntry d u b = _
  apply String.ext
  have k1 : ("\n\nDATE: " : String).data = '\n' :: '\n' :: ("DATE: " : String).data := rfl
  have k2 : ("\nUSER: " : String).data = '\n' :: ("USER: " : String).data := rfl
  have k3 : ("\nBOARD: " : String).data = '\n' :: ("BOARD: " : String).data := rfl
  have k4 : ("\n\n" : String).data = ['\n', '\n'] := rfl
  have k5 : ("\n" : String).data = ['\n'] := rfl
  simp [contextEntry, String.data_append, k1, k2, k3, k4, k5, List.append_assoc]

/-! ## Claim C8 -/

/-- C8: for each Director, the composed instruction text decomposes as a
fixed prefix, the style directive, and a fixed suffix, where prefix and
suffix (carrying the role identity, the history block, and the rules block)
do not depend on the style — so Brief and Detailed runs differ only in the
style-directive segment. -/
theorem c8_style_only_difference (history promptS : String) (rulesFile : Option String) :
    (∃ pre suf : String, ∀ style : String,
      scoutSystemPrompt history rulesFile style = pre ++ scoutStyleInst style ++ suf) ∧
    (∃ pre suf : String, ∀ style : String,
      architectSystemPrompt history rulesFile style = pre ++ architectStyleInst style ++ suf) ∧
    (∃ pre suf : String, ∀ style : String,
      vcFullPrompt promptS history rulesFile style = pre ++ vcStyleInst style ++ suf) := by
  refine ⟨⟨"You are Scout. History:\n" ++ history ++ "\n" ++
      get_agent_rules "SCOUT" rulesFile ++ "\n\n",
      "\n" ++ "CITATION REQUIRED: [Link](url) format.", fun style => ?_⟩,
    ⟨"You are Architect. History:\n" ++ history ++ "\n" ++
      get_agent_rules "ARCHITECT" rulesFile ++ "\n\n",
      "\n" ++ "NO HALLUCINATED LIBRARIES.", fun style => ?_⟩,
    ⟨"You are VC. History:\n" ++ history ++ "\n" ++
      get_agent_rules "VC" rulesFile ++ "\n\n" ++
      "Critique this:\n" ++ promptS ++ "\n\n",
      "", fun style => ?_⟩⟩
  · simp [scoutSystemPrompt, String.append_assoc]
  · simp [architectSystemPrompt, String.append_assoc]
  · simp [vcFullPrompt, String.append_assoc]

/-! ## Claim C9 -/

/-- Unfolding `find?` followed by `getD` over a cons cell. -/
theorem find?_cons_getD {α : Type} (f : α → Bool) (x : α) (xs : List α) (d : α) :
    ((x :: xs).find? f).getD d = if f x then x else ((xs.find? f).getD d) := by
  cases h : f x <;> simp [List.find?, h]

/-- C9: the default Verdict model is the first entry of the fixed priority
list occurring in the catalog's available sequence; with no priority match
it is the first available entry; a failed catalog call — including the
empty catalog, whose eager `available[0]` raises into the same handler —
yields the hardcoded low-tier identifier. -/
theorem c9_default_model_selection :
    (∀ e : Unit, selectVCDefault (Except.error e) = "models/gemini-1.5-flash") ∧
    selectVCDefault (Except.ok []) = "models/gemini-1.5-flash" ∧
    (∀ (a : String) (rest : List String),
      selectVCDefault (Except.ok (a :: rest)) =
        if (a :: rest).contains "models/gemini-3.0-pro" then "models/gemini-3.0-pro"
        else if (a :: rest).contains "models/gemini-3-pro" then "models/gemini-3-pro"
        else if (a :: rest).contains "models/gemini-1.5-pro-latest" then
          "models/gemini-1.5-pro-latest"
        else if (a :: rest).contains "models/gemini-1.5-pro" then "models/gemini-1.5-pro"
        else a) := by
  refine ⟨fun e => rfl, rfl, fun a rest => ?_⟩
  show ((vcPriorityModels.find? (fun m => (a :: rest).contains m)).getD a) = _
  rw [vcPriorityModels]
  rw [find?_cons_getD, find?_cons_getD, find?_cons_getD, find?_cons_getD]
  simp [List.find?]

end ParityBoard
